import Mathlib

/-!
Verification of `tools.py` from the funplanner repository: a shallow
embedding of the four tool functions (restaurants, movies, places, travel),
their mock fallbacks, and the `execute_tool` dispatcher, together with
proofs of the specification claims.

Python dicts returned by the tools are modelled as a `Json` value type;
`json.dumps(result, ensure_ascii=False)` is modelled by `dumps`.
Python exceptions are modelled by the `PyErr` type and `Except PyErr`.
Python `int` is modelled by `Int`; float arithmetic on the small budget
constants (`* 0.45`, `* 0.5`, `* 0.15`) is modelled exactly over `ℚ`
(the double-rounding of IEEE floats cannot change any of these strict
comparisons for the integer operands the program manipulates).
-/

/-- JSON values, as produced by `r.json()` and consumed by `json.dumps`.
Python distinguishes `int` from `float`; floats are modelled as exact
rationals (every float value the program serializes has one decimal). -/
inductive Json where
  | null : Json
  | bool : Bool → Json
  | int : Int → Json
  | float : ℚ → Json
  | str : String → Json
  | arr : List Json → Json
  | obj : List (String × Json) → Json

/-- Escape one character the way `json.dumps(..., ensure_ascii=False)` does. -/
def escChar (c : Char) : String :=
  if c = '"' then "\\\""
  else if c = '\\' then "\\\\"
  else if c = '\n' then "\\n"
  else if c = '\t' then "\\t"
  else if c = '\r' then "\\r"
  else String.singleton c

/-- Serialize a string literal with quotes, as `json.dumps` does. -/
def dumpStr (s : String) : String :=
  "\"" ++ String.join (s.toList.map escChar) ++ "\""

/-- Render a float whose value has at most one decimal digit, matching
Python `repr` on the floats this program serializes (e.g. `8.0`). -/
def floatRepr (q : ℚ) : String :=
  if q.den = 1 then toString q.num ++ ".0"
  else if (q * 10).den = 1 then
    toString ((q * 10).num.tdiv 10) ++ "." ++ toString ((q * 10).num.tmod 10).natAbs
  else toString q.num ++ "/" ++ toString q.den

mutual

/-- Model of `json.dumps(v, ensure_ascii=False)` with Python's default
separators (comma-space and colon-space). -/
def dumps : Json → String
  | Json.null => "null"
  | Json.bool true => "true"
  | Json.bool false => "false"
  | Json.int n => toString n
  | Json.float q => floatRepr q
  | Json.str s => dumpStr s
  | Json.arr xs => "[" ++ dumpsList xs ++ "]"
  | Json.obj kvs => "\x7b" ++ dumpsObj kvs ++ "\x7d"

/-- Comma-separated serialization of array elements. -/
def dumpsList : List Json → String
  | [] => ""
  | [x] => dumps x
  | x :: y :: xs => dumps x ++ ", " ++ dumpsList (y :: xs)

/-- Comma-separated serialization of object members, keys in insertion order. -/
def dumpsObj : List (String × Json) → String
  | [] => ""
  | [(k, v)] => dumpStr k ++ ": " ++ dumps v
  | (k, v) :: kv :: kvs => dumpStr k ++ ": " ++ dumps v ++ ", " ++ dumpsObj (kv :: kvs)

end

/-- Python exceptions relevant to this program, carrying the text `str(e)`
would produce. -/
inductive PyErr where
  | keyError : String → PyErr
  | indexError : String → PyErr
  | typeError : String → PyErr
deriving DecidableEq, Repr

/-- Model of Python `str(e)` on a caught exception. -/
def pyMsg : PyErr → String
  | PyErr.keyError m => m
  | PyErr.indexError m => m
  | PyErr.typeError m => m

/-- Lookup of a key in an object's member list, first binding wins
(Python dicts have unique keys; responses are modelled likewise). -/
def objLookup (j : Json) (k : String) : Option Json :=
  match j with
  | Json.obj kvs => (kvs.find? (fun kv => kv.1 = k)).map (·.2)
  | _ => none

/-- Model of Python subscripting `v[k]` with a string key: dict lookup
raises `KeyError` when the key is absent; lists and strings reject string
indices with `TypeError`; other values are not subscriptable. -/
def pySubscriptStr (v : Json) (k : String) : Except PyErr Json :=
  match v with
  | Json.obj kvs =>
    match (kvs.find? (fun kv => kv.1 = k)).map (·.2) with
    | some x => Except.ok x
    | none => Except.error (PyErr.keyError ("'" ++ k ++ "'"))
  | Json.arr _ => Except.error (PyErr.typeError "list indices must be integers or slices, not str")
  | Json.str _ => Except.error (PyErr.typeError "string indices must be integers")
  | _ => Except.error (PyErr.typeError "object is not subscriptable")

/-- Model of Python subscripting `v[i]` with a non-negative integer index:
list indexing raises `IndexError` out of range; a dict without that key
raises `KeyError`; strings yield a one-character string; other values are
not subscriptable. -/
def pySubscriptNat (v : Json) (i : Nat) : Except PyErr Json :=
  match v with
  | Json.arr xs =>
    match xs.get? i with
    | some x => Except.ok x
    | none => Except.error (PyErr.indexError "list index out of range")
  | Json.obj _ => Except.error (PyErr.keyError (toString i))
  | Json.str s =>
    match s.toList.get? i with
    | some c => Except.ok (Json.str (String.singleton c))
    | none => Except.error (PyErr.indexError "string index out of range")
  | _ => Except.error (PyErr.typeError "object is not subscriptable")

/-- Model of Python true division `v / d` for positive integer `d`:
numbers (including bools, which are ints in Python) divide to a float;
anything else raises `TypeError`. -/
def pyDivBy (v : Json) (d : Int) : Except PyErr ℚ :=
  match v with
  | Json.int n => Except.ok ((n : ℚ) / (d : ℚ))
  | Json.float q => Except.ok (q / (d : ℚ))
  | Json.bool b => Except.ok ((if b then 1 else 0 : ℚ) / (d : ℚ))
  | _ => Except.error (PyErr.typeError "unsupported operand type(s) for /")

/-- Model of Python floor division `v // d` for positive integer `d`:
an int gives an int, a float gives a float, anything else `TypeError`. -/
def pyFloorDivBy (v : Json) (d : Int) : Except PyErr Json :=
  match v with
  | Json.int n => Except.ok (Json.int (Int.fdiv n d))
  | Json.float q => Except.ok (Json.float (Int.floor (q / (d : ℚ)) : ℤ))
  | Json.bool b => Except.ok (Json.int (Int.fdiv (if b then 1 else 0) d))
  | _ => Except.error (PyErr.typeError "unsupported operand type(s) for //")

/-- Model of Python `int(x)` on a rational: truncation toward zero. -/
def pyTrunc (q : ℚ) : Int :=
  if 0 ≤ q then Int.floor q else -Int.floor (-q)

/-- Model of Python `round(x, 1)`: round to the nearest tenth, ties to even. -/
def roundPy1 (q : ℚ) : ℚ :=
  let x : ℚ := q * 10
  let f : ℤ := Int.floor x
  let r : ℤ :=
    if x - (f : ℚ) < 1 / 2 then f
    else if (1 : ℚ) / 2 < x - (f : ℚ) then f + 1
    else if f % 2 = 0 then f else f + 1
  (r : ℚ) / 10

/-- One entry of the places API response (`data["results"]`), with the
fields `search_restaurants` and `search_places` read via `p.get(...)`;
`none` models an absent key. -/
structure PlaceResp where
  name : Option String
  formatted_address : Option String
  rating : Option ℚ
  price_level : Option Int
  place_id : Option String

/-- One entry of the SerpAPI `showtimes` list, with the fields
`search_movies` reads via `m.get(...)`. -/
structure ShowtimeResp where
  name : Option String
  rating : Option Json
  duration : Option Json

/-- The ambient world of one tool invocation: the two credentials
(`GOOGLE_API_KEY`, `SERPAPI_KEY`; the empty string models an unset key,
which Python treats as falsy) and the decoded JSON bodies the remote
endpoints would return for the issued queries. -/
structure Env where
  googleKey : String
  serpKey : String
  placesRestaurantsResp : List PlaceResp
  placesAttractionsResp : List PlaceResp
  showtimesResp : List ShowtimeResp
  travelResp : Json

/-- Python f-string rendering of an optional string: `None` prints as
`"None"` (used for `place_id` inside the maps URL). -/
def optStrPy : Option String → String
  | some s => s
  | none => "None"

/-- An optional string as a JSON value: `None` becomes `null`. -/
def optStrJson : Option String → Json
  | some s => Json.str s
  | none => Json.null

/-- The `cost_map = {1: 150, 2: 350, 3: 600, 4: 1200}` lookup with
`cost_map.get(price_level, 350)` default. -/
def cost_map (price_level : Int) : Int :=
  if price_level = 1 then 150
  else if price_level = 2 then 350
  else if price_level = 3 then 600
  else if price_level = 4 then 1200
  else 350

/-- The loop body of the live path of `search_restaurants`: maps one
place of the response to a result record, or skips it when its estimated
cost exceeds 45% of the budget. -/
def restaurantEntry (area : String) (max_budget_per_person : Int) (p : PlaceResp) : Option Json :=
  let price_level := p.price_level.getD 2
  let est_cost := cost_map price_level
  -- `est_cost > max_budget_per_person * 0.45`, cross-multiplied by 20:
  -- exact for these integer operands (no table cost is a multiple of 9/20).
  if 20 * est_cost > 9 * max_budget_per_person then none
  else some (Json.obj [
    ("name", optStrJson p.name),
    ("address", Json.str (p.formatted_address.getD area)),
    ("rating", Json.float (p.rating.getD 4)),
    ("price_level", Json.int price_level),
    ("estimated_cost", Json.int est_cost),
    ("maps_url", Json.str ("https://www.google.com/maps/place/?q=place_id:" ++ optStrPy p.place_id)),
    ("place_id", optStrJson p.place_id)])

/-- The seven hard-coded records of `_mock_restaurants`. -/
def mock_restaurants_all : List Json := [
  Json.obj [("name", Json.str "Paradise Biryani"), ("address", Json.str "MG Road, Secunderabad"),
    ("rating", Json.float 4.4), ("estimated_cost", Json.int 320),
    ("maps_url", Json.str "https://maps.google.com/?q=Paradise+Biryani+Hyderabad")],
  Json.obj [("name", Json.str "Bawarchi Restaurant"), ("address", Json.str "RTC X Roads, Hyderabad"),
    ("rating", Json.float 4.3), ("estimated_cost", Json.int 280),
    ("maps_url", Json.str "https://maps.google.com/?q=Bawarchi+Hyderabad")],
  Json.obj [("name", Json.str "Rayalaseema Ruchulu"), ("address", Json.str "Banjara Hills, Hyderabad"),
    ("rating", Json.float 4.2), ("estimated_cost", Json.int 350),
    ("maps_url", Json.str "https://maps.google.com/?q=Rayalaseema+Ruchulu+Hyderabad")],
  Json.obj [("name", Json.str "AB's – Absolute Barbecues"), ("address", Json.str "Jubilee Hills, Hyderabad"),
    ("rating", Json.float 4.5), ("estimated_cost", Json.int 700),
    ("maps_url", Json.str "https://maps.google.com/?q=AB%27s+Absolute+Barbecues+Hyderabad")],
  Json.obj [("name", Json.str "Ohri's Jiva Imperia"), ("address", Json.str "Basheer Bagh, Hyderabad"),
    ("rating", Json.float 4.1), ("estimated_cost", Json.int 600),
    ("maps_url", Json.str "https://maps.google.com/?q=Ohri%27s+Hyderabad")],
  Json.obj [("name", Json.str "Shah Ghouse Cafe"), ("address", Json.str "Tolichowki, Hyderabad"),
    ("rating", Json.float 4.5), ("estimated_cost", Json.int 200),
    ("maps_url", Json.str "https://maps.google.com/?q=Shah+Ghouse+Hyderabad")],
  Json.obj [("name", Json.str "Chutneys"), ("address", Json.str "Banjara Hills, Hyderabad"),
    ("rating", Json.float 4.3), ("estimated_cost", Json.int 250),
    ("maps_url", Json.str "https://maps.google.com/?q=Chutneys+Hyderabad")]]

/-- `_mock_restaurants`: keep records with `estimated_cost <= budget * 0.5`,
then take the first 4. -/
def mock_restaurants (_area : String) (budget : Int) : List Json :=
  (mock_restaurants_all.filter (fun r =>
    match objLookup r "estimated_cost" with
    -- `r["estimated_cost"] <= budget * 0.5`, cross-multiplied by 2.
    | some (Json.int c) => decide (2 * c ≤ budget)
    | _ => false)).take 4

/-- Live path of `search_restaurants`, as the source orders it: the
response list is sliced to `limit` first (`data.get("results", [])[:limit]`),
each kept place is mapped and budget-filtered, and the mock list is
returned when nothing survives (`return results or _mock_restaurants(...)`). -/
def search_restaurants_live (resp : List PlaceResp) (area : String)
    (max_budget_per_person : Int) (limit : Nat) : List Json :=
  let results := (resp.take limit).filterMap (restaurantEntry area max_budget_per_person)
  if results.isEmpty then mock_restaurants area max_budget_per_person else results

/-- Rendering of claim C1's words (spec order): the budget filter runs
over the whole response list and the *filtered* list is capped at
`limit`. Written to be compared with `search_restaurants_live`. -/
def search_restaurants_live_specOrder (resp : List PlaceResp) (area : String)
    (max_budget_per_person : Int) (limit : Nat) : List Json :=
  let results := (resp.filterMap (restaurantEntry area max_budget_per_person)).take limit
  if results.isEmpty then mock_restaurants area max_budget_per_person else results

/-- `search_restaurants`: mock path when `GOOGLE_API_KEY` is falsy, else
the live path over the decoded places response. -/
def search_restaurants (env : Env) (area : String) (max_budget_per_person : Int)
    (_cuisine : String) (limit : Nat) : List Json :=
  if env.googleKey = "" then mock_restaurants area max_budget_per_person
  else search_restaurants_live env.placesRestaurantsResp area max_budget_per_person limit

/-- `_estimate_ticket_price`: tiers on the caller's price ceiling. -/
def estimate_ticket_price (max_price : Int) : Int :=
  if max_price ≥ 400 then 350
  else if max_price ≥ 250 then 220
  else 150

/-- The three hard-coded records of `_mock_movies`. -/
def mock_movies_all : List Json := [
  Json.obj [("title", Json.str "Check BookMyShow for Latest Shows"), ("theatre", Json.str "AMB Cinemas, Gachibowli"),
    ("genre", Json.str "Action"), ("rating", Json.str "8.1/10"), ("ticket_price", Json.int 300),
    ("duration", Json.str "2h 25m"), ("bookmyshow_url", Json.str "https://in.bookmyshow.com/movies/hyderabad")],
  Json.obj [("title", Json.str "PVR Inorbit – Current Blockbuster"), ("theatre", Json.str "PVR Inorbit Mall, HITEC City"),
    ("genre", Json.str "Thriller"), ("rating", Json.str "7.8/10"), ("ticket_price", Json.int 350),
    ("duration", Json.str "2h 10m"), ("bookmyshow_url", Json.str "https://in.bookmyshow.com/movies/hyderabad")],
  Json.obj [("title", Json.str "INOX GVK One – Matinee Show"), ("theatre", Json.str "INOX GVK One, Banjara Hills"),
    ("genre", Json.str "Comedy"), ("rating", Json.str "7.2/10"), ("ticket_price", Json.int 200),
    ("duration", Json.str "1h 55m"), ("bookmyshow_url", Json.str "https://in.bookmyshow.com/movies/hyderabad")]]

/-- `_mock_movies`: keep records with `ticket_price <= budget`, take 3. -/
def mock_movies (_genre : String) (budget : Int) : List Json :=
  (mock_movies_all.filter (fun m =>
    match objLookup m "ticket_price" with
    | some (Json.int c) => decide (c ≤ budget)
    | _ => false)).take 3

/-- The loop body of the live path of `search_movies`. -/
def movieEntry (preferred_genre : String) (max_ticket_price : Int) (m : ShowtimeResp) : Json :=
  Json.obj [
    ("title", Json.str (m.name.getD "Unknown")),
    ("theatre", Json.str "PVR / INOX / AMB Cinemas"),
    ("genre", Json.str (if preferred_genre = "" then "Drama" else preferred_genre)),
    ("rating", m.rating.getD (Json.str "7.5/10")),
    ("ticket_price", Json.int (estimate_ticket_price max_ticket_price)),
    ("duration", m.duration.getD (Json.str "2h 30m")),
    ("bookmyshow_url", Json.str "https://in.bookmyshow.com")]

/-- Live path of `search_movies`: slice `data.get("showtimes", [])` to
`limit`, map each hit, fall back to the mock list when empty. -/
def search_movies_live (shows : List ShowtimeResp) (preferred_genre : String)
    (max_ticket_price : Int) (limit : Nat) : List Json :=
  let results := (shows.take limit).map (movieEntry preferred_genre max_ticket_price)
  if results.isEmpty then mock_movies preferred_genre max_ticket_price else results

/-- `search_movies`: mock path when `SERPAPI_KEY` is falsy, else live. -/
def search_movies (env : Env) (preferred_genre : String) (max_ticket_price : Int)
    (limit : Nat) : List Json :=
  if env.serpKey = "" then mock_movies preferred_genre max_ticket_price
  else search_movies_live env.showtimesResp preferred_genre max_ticket_price limit

/-- ASCII lowercase of a string as a character list, modelling
`str.lower()` on the ASCII names this program handles. -/
def strToLower (s : String) : List Char := s.toList.map Char.toLower

/-- Boolean test that `pat` is an initial segment of `s`. -/
def strStartsWith : List Char → List Char → Bool
  | [], _ => true
  | _ :: _, [] => false
  | a :: as, b :: bs => a == b && strStartsWith as bs

/-- Boolean substring test, modelling Python `pat in s` on strings. -/
def strHasSub (pat : List Char) : List Char → Bool
  | [] => pat.isEmpty
  | b :: bs => strStartsWith pat (b :: bs) || strHasSub pat bs

/-- The `fee_map` table of `_estimate_entry_fee`, in dict insertion order. -/
def fee_map : List (String × Int) := [
  ("golconda", 35), ("charminar", 25), ("ramoji", 1150),
  ("birla", 0), ("hussain sagar", 0), ("lumbini", 50),
  ("nehru zoo", 80), ("salar jung", 20), ("qutb shahi", 15),
  ("snow world", 799), ("wonderla", 999)]

/-- Test `k in name.lower()` for one table key. -/
def keyMatches (name : String) (k : String) : Bool :=
  strHasSub k.toList (strToLower name)

/-- `_estimate_entry_fee`: first key of `fee_map` (in insertion order)
contained in the lowercased name wins; default 50. -/
def estimate_entry_fee (name : String) : Int :=
  match fee_map.find? (fun kv => keyMatches name kv.1) with
  | some kv => kv.2
  | none => 50

/-- The loop body of the live path of `search_places`. -/
def placeEntry (area : String) (p : PlaceResp) : Json :=
  Json.obj [
    ("name", optStrJson p.name),
    ("address", Json.str (p.formatted_address.getD area)),
    ("rating", Json.float (p.rating.getD 4)),
    ("entry_fee", Json.int (estimate_entry_fee (p.name.getD ""))),
    ("maps_url", Json.str ("https://www.google.com/maps/place/?q=place_id:" ++ optStrPy p.place_id)),
    ("visit_duration_mins", Json.int 60)]

/-- The six hard-coded records of `_mock_places`. -/
def mock_places_all : List Json := [
  Json.obj [("name", Json.str "Hussain Sagar Lake & Tank Bund"), ("address", Json.str "Tank Bund Road, Hyderabad"),
    ("rating", Json.float 4.3), ("entry_fee", Json.int 0), ("visit_duration_mins", Json.int 60),
    ("maps_url", Json.str "https://maps.google.com/?q=Hussain+Sagar+Lake")],
  Json.obj [("name", Json.str "Golconda Fort"), ("address", Json.str "Ibrahim Bagh, Hyderabad"),
    ("rating", Json.float 4.4), ("entry_fee", Json.int 35), ("visit_duration_mins", Json.int 90),
    ("maps_url", Json.str "https://maps.google.com/?q=Golconda+Fort")],
  Json.obj [("name", Json.str "Charminar"), ("address", Json.str "Charminar, Old City, Hyderabad"),
    ("rating", Json.float 4.5), ("entry_fee", Json.int 25), ("visit_duration_mins", Json.int 60),
    ("maps_url", Json.str "https://maps.google.com/?q=Charminar+Hyderabad")],
  Json.obj [("name", Json.str "Lumbini Park"), ("address", Json.str "Secretariat Road, Hyderabad"),
    ("rating", Json.float 4.1), ("entry_fee", Json.int 50), ("visit_duration_mins", Json.int 60),
    ("maps_url", Json.str "https://maps.google.com/?q=Lumbini+Park+Hyderabad")],
  Json.obj [("name", Json.str "Birla Mandir"), ("address", Json.str "Naubath Pahad, Hyderabad"),
    ("rating", Json.float 4.6), ("entry_fee", Json.int 0), ("visit_duration_mins", Json.int 45),
    ("maps_url", Json.str "https://maps.google.com/?q=Birla+Mandir+Hyderabad")],
  Json.obj [("name", Json.str "Inorbit Mall"), ("address", Json.str "HITEC City, Hyderabad"),
    ("rating", Json.float 4.3), ("entry_fee", Json.int 0), ("visit_duration_mins", Json.int 120),
    ("maps_url", Json.str "https://maps.google.com/?q=Inorbit+Mall+Hyderabad")]]

/-- `_mock_places`: keep records with `entry_fee <= budget * 0.15`, take 4. -/
def mock_places (_interests : String) (budget : Int) : List Json :=
  (mock_places_all.filter (fun p =>
    match objLookup p "entry_fee" with
    -- `p["entry_fee"] <= budget * 0.15`, cross-multiplied by 20.
    | some (Json.int f) => decide (20 * f ≤ 3 * budget)
    | _ => false)).take 4

/-- Live path of `search_places`: slice the response to `limit`, map each
place (no budget filter on this path), fall back to mock when empty. -/
def search_places_live (resp : List PlaceResp) (interests : String)
    (max_entry_fee : Int) (area : String) (limit : Nat) : List Json :=
  let results := (resp.take limit).map (placeEntry area)
  if results.isEmpty then mock_places interests max_entry_fee else results

/-- `search_places`: mock path when `GOOGLE_API_KEY` is falsy, else live. -/
def search_places (env : Env) (interests : String) (max_entry_fee : Int)
    (area : String) (limit : Nat) : List Json :=
  if env.googleKey = "" then mock_places interests max_entry_fee
  else search_places_live env.placesAttractionsResp interests max_entry_fee area limit

/-- `_estimate_cab_fare`: `int(50 + km * 12)`. -/
def estimate_cab_fare (km : ℚ) : Int := pyTrunc (50 + km * 12)

/-- `_mock_travel`: the fixed heuristic record, ignoring both arguments. -/
def mock_travel (_origin _destination : String) : Json :=
  Json.obj [
    ("distance_km", Json.float 8),
    ("duration_mins", Json.int 20),
    ("cab_fare_inr", Json.int 130),
    ("mode", Json.str "Uber/Ola")]

/-- The `try` block of the live path of `get_travel_info`: subscript the
decoded response down to the first element, divide the distance by 1000,
floor-divide the duration by 60, and build the result record. Each step
may raise (`KeyError`, `IndexError`, or `TypeError`), in the evaluation
order of the source. -/
def travel_body (data : Json) : Except PyErr Json := do
  let rows ← pySubscriptStr data "rows"
  let row0 ← pySubscriptNat rows 0
  let elements ← pySubscriptStr row0 "elements"
  let element ← pySubscriptNat elements 0
  let dist ← pySubscriptStr element "distance"
  let distVal ← pySubscriptStr dist "value"
  let distance_km ← pyDivBy distVal 1000
  let dur ← pySubscriptStr element "duration"
  let durVal ← pySubscriptStr dur "value"
  let duration_min ← pyFloorDivBy durVal 60
  Except.ok (Json.obj [
    ("distance_km", Json.float (roundPy1 distance_km)),
    ("duration_mins", duration_min),
    ("cab_fare_inr", Json.int (estimate_cab_fare distance_km)),
    ("mode", Json.str "Uber/Ola")])

/-- Live path of `get_travel_info`: run the `try` block; `except
(KeyError, IndexError)` returns the mock record; any other exception
(notably `TypeError` from a wrongly-typed field) propagates. -/
def get_travel_info_from_data (data : Json) (origin destination : String) : Except PyErr Json :=
  match travel_body data with
  | Except.ok v => Except.ok v
  | Except.error (PyErr.keyError _) => Except.ok (mock_travel origin destination)
  | Except.error (PyErr.indexError _) => Except.ok (mock_travel origin destination)
  | Except.error e => Except.error e

/-- `get_travel_info`: mock record when `GOOGLE_API_KEY` is falsy, else
the live path over the decoded distance-matrix response. -/
def get_travel_info (env : Env) (origin destination : String) : Except PyErr Json :=
  if env.googleKey = "" then Except.ok (mock_travel origin destination)
  else get_travel_info_from_data env.travelResp origin destination

/-- Lookup of a keyword argument in the tool input mapping. -/
def argLookup (tool_input : List (String × Json)) (k : String) : Option Json :=
  (tool_input.find? (fun kv => kv.1 = k)).map (·.2)

/-- CPython keyword-binding check for `f(**tool_input)`: a key that is
not a parameter of `f` raises
`TypeError: f() got an unexpected keyword argument '<k>'`. -/
def bindCheck (fname : String) (params : List String) (tool_input : List (String × Json)) : Except PyErr Unit :=
  match tool_input.find? (fun kv => !(params.contains kv.1)) with
  | some kv => Except.error (PyErr.typeError
      (fname ++ "() got an unexpected keyword argument '" ++ kv.1 ++ "'"))
  | none => Except.ok ()

/-- Extraction of a string-typed argument value. The schema declares
these parameters as strings; a value of another type is rejected here
with a `TypeError`, standing for the `TypeError` CPython raises when the
wrongly-typed value first meets a string operation in the body. -/
def asStr (fname pname : String) (v : Json) : Except PyErr String :=
  match v with
  | Json.str s => Except.ok s
  | _ => Except.error (PyErr.typeError (fname ++ "(): argument '" ++ pname ++ "' must be str"))

/-- Extraction of an integer-typed argument value (see `asStr`). -/
def asInt (fname pname : String) (v : Json) : Except PyErr Int :=
  match v with
  | Json.int n => Except.ok n
  | _ => Except.error (PyErr.typeError (fname ++ "(): argument '" ++ pname ++ "' must be int"))

/-- A required string parameter: absent raises the CPython
missing-argument `TypeError`. -/
def reqStr (fname pname : String) (tool_input : List (String × Json)) : Except PyErr String :=
  match argLookup tool_input pname with
  | some v => asStr fname pname v
  | none => Except.error (PyErr.typeError
      (fname ++ "() missing 1 required positional argument: '" ++ pname ++ "'"))

/-- A required integer parameter. -/
def reqInt (fname pname : String) (tool_input : List (String × Json)) : Except PyErr Int :=
  match argLookup tool_input pname with
  | some v => asInt fname pname v
  | none => Except.error (PyErr.typeError
      (fname ++ "() missing 1 required positional argument: '" ++ pname ++ "'"))

/-- An optional string parameter with its Python default. -/
def optStrArg (fname pname : String) (dflt : String) (tool_input : List (String × Json)) : Except PyErr String :=
  match argLookup tool_input pname with
  | some v => asStr fname pname v
  | none => Except.ok dflt

/-- An optional integer parameter with its Python default. -/
def optIntArg (fname pname : String) (dflt : Int) (tool_input : List (String × Json)) : Except PyErr Int :=
  match argLookup tool_input pname with
  | some v => asInt fname pname v
  | none => Except.ok dflt

/-- The `try` block of `execute_tool`: route by exact name to one of the
four tools (binding the keyword arguments as CPython does), or build the
unknown-tool error record. Search tools return a JSON list, travel a
JSON object; any raised exception surfaces as `Except.error`. -/
def dispatch (env : Env) (tool_name : String) (tool_input : List (String × Json)) : Except PyErr Json :=
  if tool_name = "search_restaurants" then do
    let _ ← bindCheck "search_restaurants" ["area", "max_budget_per_person", "cuisine", "limit"] tool_input
    let area ← reqStr "search_restaurants" "area" tool_input
    let maxB ← reqInt "search_restaurants" "max_budget_per_person" tool_input
    let cuisine ← optStrArg "search_restaurants" "cuisine" "" tool_input
    let limit ← optIntArg "search_restaurants" "limit" 5 tool_input
    Except.ok (Json.arr (search_restaurants env area maxB cuisine limit.toNat))
  else if tool_name = "search_movies" then do
    let _ ← bindCheck "search_movies" ["preferred_genre", "max_ticket_price", "limit"] tool_input
    let genre ← optStrArg "search_movies" "preferred_genre" "" tool_input
    let maxP ← optIntArg "search_movies" "max_ticket_price" 400 tool_input
    let limit ← optIntArg "search_movies" "limit" 5 tool_input
    Except.ok (Json.arr (search_movies env genre maxP limit.toNat))
  else if tool_name = "search_places" then do
    let _ ← bindCheck "search_places" ["interests", "max_entry_fee", "area", "limit"] tool_input
    let interests ← optStrArg "search_places" "interests" "sightseeing" tool_input
    let maxFee ← optIntArg "search_places" "max_entry_fee" 200 tool_input
    let area ← optStrArg "search_places" "area" "Hyderabad" tool_input
    let limit ← optIntArg "search_places" "limit" 6 tool_input
    Except.ok (Json.arr (search_places env interests maxFee area limit.toNat))
  else if tool_name = "get_travel_info" then do
    let _ ← bindCheck "get_travel_info" ["origin", "destination"] tool_input
    let origin ← reqStr "get_travel_info" "origin" tool_input
    let destination ← reqStr "get_travel_info" "destination" tool_input
    get_travel_info env origin destination
  else Except.ok (Json.obj [("error", Json.str ("Unknown tool: " ++ tool_name))])

/-- `execute_tool`: the whole dispatch (including `json.dumps(result)`)
runs inside `try`; `except Exception as e` serializes the error record
instead. The returned value is always a string payload. -/
def execute_tool (env : Env) (tool_name : String) (tool_input : List (String × Json)) : String :=
  match dispatch env tool_name tool_input with
  | Except.ok v => dumps v
  | Except.error e => dumps (Json.obj [("error", Json.str (pyMsg e))])

/-- Any budget-filtered-and-capped mock list is at most 4 long. -/
theorem mock_take4_length_le (l : List Json) (p : Json → Bool) :
    ((l.filter p).take 4).length ≤ 4 :=
  List.length_take_le 4 _

/-- C2: for every area string and every budget B, when no API credential
is configured, `search_restaurants` returns at most 4 entries, and every
returned entry has `estimated_cost ≤ 0.5 × B`. -/
theorem search_restaurants_mock_budget (env : Env) (area : String) (B : Int)
    (cuisine : String) (limit : Nat) (hk : env.googleKey = "") :
    (search_restaurants env area B cuisine limit).length ≤ 4 ∧
    ∀ r ∈ search_restaurants env area B cuisine limit, ∃ c : Int,
      objLookup r "estimated_cost" = some (Json.int c) ∧ (c : ℚ) ≤ (B : ℚ) * 0.5 := by
  have hsr : search_restaurants env area B cuisine limit = mock_restaurants area B := by
    simp [search_restaurants, hk]
  rw [hsr]
  constructor
  · exact mock_take4_length_le _ _
  · intro r hr
    have hr2 := List.mem_of_mem_take hr
    obtain ⟨hall, hp⟩ := List.mem_filter.mp hr2
    rcases hv : objLookup r "estimated_cost" with _ | v
    · rw [hv] at hp; simp at hp
    · cases v with
      | int c =>
        rw [hv] at hp
        simp only [decide_eq_true_eq] at hp
        refine ⟨c, rfl, ?_⟩
        have hq : (2 * c : ℚ) ≤ (B : ℚ) := by exact_mod_cast hp
        linarith
      | null => rw [hv] at hp; simp at hp
      | bool b => rw [hv] at hp; simp at hp
      | float q => rw [hv] at hp; simp at hp
      | str s => rw [hv] at hp; simp at hp
      | arr xs => rw [hv] at hp; simp at hp
      | obj kvs => rw [hv] at hp; simp at hp

/-- An environment with both credentials unset (the mock mode). -/
def envNoKeys : Env := ⟨"", "", [], [], [], Json.null⟩

theorem search_restaurants_mock_budget_witness :
    (search_restaurants envNoKeys "Banjara Hills" 1000 "" 5).length ≤ 4 ∧
    ∃ c : Int, objLookup (Json.obj [("name", Json.str "Paradise Biryani"),
      ("address", Json.str "MG Road, Secunderabad"), ("rating", Json.float 4.4),
      ("estimated_cost", Json.int 320),
      ("maps_url", Json.str "https://maps.google.com/?q=Paradise+Biryani+Hyderabad")])
      "estimated_cost" = some (Json.int c) ∧ (c : ℚ) ≤ (1000 : ℚ) * 0.5 := by
  have h := search_restaurants_mock_budget envNoKeys "Banjara Hills" 1000 "" 5 rfl
  exact ⟨h.1, h.2 _ (List.Mem.head _)⟩

/-- C3: for every budget B, when no credential is configured,
`search_places` returns at most 4 entries and every returned entry has
`entry_fee ≤ 0.15 × B`. -/
theorem search_places_mock_budget (env : Env) (interests : String) (B : Int)
    (area : String) (limit : Nat) (hk : env.googleKey = "") :
    (search_places env interests B area limit).length ≤ 4 ∧
    ∀ p ∈ search_places env interests B area limit, ∃ f : Int,
      objLookup p "entry_fee" = some (Json.int f) ∧ (f : ℚ) ≤ (B : ℚ) * 0.15 := by
  have hsr : search_places env interests B area limit = mock_places interests B := by
    simp [search_places, hk]
  rw [hsr]
  constructor
  · exact mock_take4_length_le _ _
  · intro p hp0
    have hp2 := List.mem_of_mem_take hp0
    obtain ⟨hall, hp⟩ := List.mem_filter.mp hp2
    rcases hv : objLookup p "entry_fee" with _ | v
    · rw [hv] at hp; simp at hp
    · cases v with
      | int f =>
        rw [hv] at hp
        simp only [decide_eq_true_eq] at hp
        refine ⟨f, rfl, ?_⟩
        have hq : (20 * f : ℚ) ≤ (3 * B : ℚ) := by exact_mod_cast hp
        linarith
      | null => rw [hv] at hp; simp at hp
      | bool b => rw [hv] at hp; simp at hp
      | float q => rw [hv] at hp; simp at hp
      | str s => rw [hv] at hp; simp at hp
      | arr xs => rw [hv] at hp; simp at hp
      | obj kvs => rw [hv] at hp; simp at hp

theorem search_places_mock_budget_witness :
    (search_places envNoKeys "sightseeing" 200 "Hyderabad" 6).length ≤ 4 ∧
    ∃ f : Int, objLookup (Json.obj [("name", Json.str "Hussain Sagar Lake & Tank Bund"),
      ("address", Json.str "Tank Bund Road, Hyderabad"), ("rating", Json.float 4.3),
      ("entry_fee", Json.int 0), ("visit_duration_mins", Json.int 60),
      ("maps_url", Json.str "https://maps.google.com/?q=Hussain+Sagar+Lake")])
      "entry_fee" = some (Json.int f) ∧ (f : ℚ) ≤ (200 : ℚ) * 0.15 := by
  have h := search_places_mock_budget envNoKeys "sightseeing" 200 "Hyderabad" 6 rfl
  exact ⟨h.1, h.2 _ (List.Mem.head _)⟩

/-- C10: when no credential is configured, `get_travel_info` is a
constant function of its origin/destination inputs. -/
theorem get_travel_info_no_credential_constant (env : Env) (o d o2 d2 : String)
    (hk : env.googleKey = "") :
    get_travel_info env o d = get_travel_info env o2 d2 ∧
    get_travel_info env o d = Except.ok (mock_travel o d) := by
  constructor <;> simp [get_travel_info, hk, mock_travel]

theorem get_travel_info_no_credential_constant_witness :
    get_travel_info envNoKeys "Charminar" "Golconda Fort" =
      get_travel_info envNoKeys "Hitec City" "Secunderabad" :=
  (get_travel_info_no_credential_constant envNoKeys "Charminar" "Golconda Fort"
    "Hitec City" "Secunderabad" rfl).1

/-- C4: the dispatcher called for `get_travel_info` on origin "A" and
destination "B" with no credential returns exactly the serialized fixed
heuristic record; the same record is what the no-credential path of
`get_travel_info` itself produces, for every origin and destination. -/
theorem execute_travel_no_credential (env : Env) (hk : env.googleKey = "") :
    execute_tool env "get_travel_info"
      [("origin", Json.str "A"), ("destination", Json.str "B")] =
      "\x7b\"distance_km\": 8.0, \"duration_mins\": 20, \"cab_fare_inr\": 130, \"mode\": \"Uber/Ola\"\x7d" ∧
    ∀ origin destination, get_travel_info env origin destination =
      Except.ok (Json.obj [("distance_km", Json.float 8), ("duration_mins", Json.int 20),
        ("cab_fare_inr", Json.int 130), ("mode", Json.str "Uber/Ola")]) := by
  obtain ⟨gk, sk, pr, pa, sh, tr⟩ := env
  dsimp only at hk
  subst hk
  exact ⟨rfl, fun o d => rfl⟩

theorem execute_travel_no_credential_witness :
    execute_tool envNoKeys "get_travel_info"
      [("origin", Json.str "A"), ("destination", Json.str "B")] =
      "\x7b\"distance_km\": 8.0, \"duration_mins\": 20, \"cab_fare_inr\": 130, \"mode\": \"Uber/Ola\"\x7d" :=
  (execute_travel_no_credential envNoKeys rfl).1

/-- C5: for every tool name other than the four known ones, the
dispatcher returns the serialized record with error message
`Unknown tool: <name>`. -/
theorem execute_unknown_tool (env : Env) (name : String) (input : List (String × Json))
    (h1 : name ≠ "search_restaurants") (h2 : name ≠ "search_movies")
    (h3 : name ≠ "search_places") (h4 : name ≠ "get_travel_info") :
    execute_tool env name input =
      dumps (Json.obj [("error", Json.str ("Unknown tool: " ++ name))]) := by
  simp [execute_tool, dispatch, h1, h2, h3, h4]

theorem execute_unknown_tool_witness :
    execute_tool envNoKeys "frobnicate" [] =
      "\x7b\"error\": \"Unknown tool: frobnicate\"\x7d" := by
  rw [execute_unknown_tool envNoKeys "frobnicate" [] (by decide) (by decide)
    (by decide) (by decide)]
  rfl

/-- C6: for every tool name and argument mapping the dispatcher returns a
string payload: a raised exception is caught and serialized as the record
with the exception's message, and a successful result is serialized as-is. -/
theorem execute_tool_normalizes (env : Env) (name : String) (input : List (String × Json)) :
    (∀ e, dispatch env name input = Except.error e →
      execute_tool env name input = dumps (Json.obj [("error", Json.str (pyMsg e))])) ∧
    (∀ v, dispatch env name input = Except.ok v →
      execute_tool env name input = dumps v) := by
  constructor
  · intro e h; simp [execute_tool, h]
  · intro v h; simp [execute_tool, h]

theorem execute_tool_normalizes_witness :
    execute_tool envNoKeys "search_restaurants" [("bogus", Json.int 1)] =
      dumps (Json.obj [("error",
        Json.str "search_restaurants() got an unexpected keyword argument 'bogus'")]) :=
  (execute_tool_normalizes envNoKeys "search_restaurants" [("bogus", Json.int 1)]).1
    (PyErr.typeError "search_restaurants() got an unexpected keyword argument 'bogus'") rfl

/-- C9: `_estimate_ticket_price` returns 150 for every ceiling below 150,
its estimate is within the stated ceiling iff the ceiling is at least
150, and on the live movie path with ceiling below 150 every returned
record carries `ticket_price = 150` (above the ceiling). -/
theorem estimate_ticket_price_floor (m : Int) :
    (estimate_ticket_price m ≤ m ↔ 150 ≤ m) ∧
    (m < 150 → estimate_ticket_price m = 150) ∧
    (∀ (shows : List ShowtimeResp) (genre : String) (limit : Nat) (rec : Json),
      m < 150 → rec ∈ search_movies_live shows genre m limit →
      objLookup rec "ticket_price" = some (Json.int 150)) := by
  have hiff : estimate_ticket_price m ≤ m ↔ 150 ≤ m := by
    unfold estimate_ticket_price
    split_ifs with h1 h2 <;> omega
  have h150 : m < 150 → estimate_ticket_price m = 150 := by
    intro h
    unfold estimate_ticket_price
    split_ifs with h1 h2 <;> omega
  refine ⟨hiff, h150, ?_⟩
  intro shows genre limit rec hm hmem
  unfold search_movies_live at hmem
  by_cases he : ((shows.take limit).map (movieEntry genre m)).isEmpty = true
  · rw [if_pos he] at hmem
    have hm2 := List.mem_of_mem_take hmem
    obtain ⟨hall, hp⟩ := List.mem_filter.mp hm2
    simp only [mock_movies_all, List.mem_cons, List.not_mem_nil, or_false] at hall
    rcases hall with h | h | h <;> subst h <;>
      simp [objLookup] at hp <;> omega
  · rw [if_neg he] at hmem
    obtain ⟨s, _, hrec⟩ := List.mem_map.mp hmem
    subst hrec
    simp [movieEntry, objLookup, h150 hm]

theorem estimate_ticket_price_floor_witness :
    estimate_ticket_price 100 = 150 ∧
    objLookup (Json.obj [("title", Json.str "Test Movie"),
      ("theatre", Json.str "PVR / INOX / AMB Cinemas"), ("genre", Json.str "Drama"),
      ("rating", Json.str "7.5/10"), ("ticket_price", Json.int 150),
      ("duration", Json.str "2h 30m"),
      ("bookmyshow_url", Json.str "https://in.bookmyshow.com")]) "ticket_price" =
      some (Json.int 150) := by
  refine ⟨(estimate_ticket_price_floor 100).2.1 (by decide), ?_⟩
  exact (estimate_ticket_price_floor 100).2.2 [⟨some "Test Movie", none, none⟩] "" 5 _
    (by decide) (List.Mem.head _)

/-- C8 counterexample: the name "Birla Golconda Park" contains the table
key "birla" (whose fee is 0) case-insensitively, yet the lookup returns
35 (the fee of "golconda", which appears earlier in the table), so "for
every name containing a table key, it returns that key's fee" is false. -/
theorem estimate_entry_fee_counterexample :
    keyMatches "Birla Golconda Park" "birla" = true ∧
    ("birla", (0 : Int)) ∈ fee_map ∧
    estimate_entry_fee "Birla Golconda Park" = 35 ∧
    (35 : Int) ≠ 0 :=
  ⟨by decide, by decide, by decide, by decide⟩

/-- C8 amended: the lookup is case-insensitive and substring-based over
the 11-entry table; a name matching no key yields the default 50; a name
matching at least one key yields the fee of some matching key (the
earliest in table order), hence of *the* matching key whenever it is
unique; "Golconda Fort, Hyderabad" yields 35. -/
theorem estimate_entry_fee_amended (name : String) :
    fee_map.length = 11 ∧
    estimate_entry_fee "Golconda Fort, Hyderabad" = 35 ∧
    ((∀ kv ∈ fee_map, keyMatches name kv.1 = false) → estimate_entry_fee name = 50) ∧
    (∀ kv ∈ fee_map, keyMatches name kv.1 = true →
      ∃ kv2 ∈ fee_map, keyMatches name kv2.1 = true ∧ estimate_entry_fee name = kv2.2) ∧
    (∀ kv ∈ fee_map, keyMatches name kv.1 = true →
      (∀ kv2 ∈ fee_map, keyMatches name kv2.1 = true → kv2 = kv) →
      estimate_entry_fee name = kv.2) := by
  refine ⟨by decide, by decide, ?_, ?_, ?_⟩
  · intro hall
    unfold estimate_entry_fee
    rcases hf : fee_map.find? (fun kv => keyMatches name kv.1) with _ | kv0
    · rw [hf]
    · have h0 := List.find?_some hf
      have h1 : keyMatches name kv0.1 = true := h0
      have h2 := List.mem_of_find?_eq_some hf
      rw [hall kv0 h2] at h1
      exact absurd h1 (by decide)
  · intro kv hkv hmatch
    unfold estimate_entry_fee
    rcases hf : fee_map.find? (fun kv => keyMatches name kv.1) with _ | kv0
    · have hc : ¬((fun kv => keyMatches name kv.1) kv = true) :=
        List.find?_eq_none.mp hf kv hkv
      exact absurd hmatch hc
    · have h0 := List.find?_some hf
      have h1 : keyMatches name kv0.1 = true := h0
      have h2 := List.mem_of_find?_eq_some hf
      rw [hf]
      exact ⟨kv0, h2, h1, rfl⟩
  · intro kv hkv hmatch huniq
    unfold estimate_entry_fee
    rcases hf : fee_map.find? (fun kv => keyMatches name kv.1) with _ | kv0
    · have hc : ¬((fun kv => keyMatches name kv.1) kv = true) :=
        List.find?_eq_none.mp hf kv hkv
      exact absurd hmatch hc
    · have h0 := List.find?_some hf
      have h1 : keyMatches name kv0.1 = true := h0
      have h2 := List.mem_of_find?_eq_some hf
      rw [hf]
      show kv0.2 = kv.2
      rw [huniq kv0 h2 h1]

theorem estimate_entry_fee_amended_witness :
    estimate_entry_fee "Salar Jung Museum" = 20 ∧ estimate_entry_fee "Some Random Mall" = 50 := by
  constructor
  · exact (estimate_entry_fee_amended "Salar Jung Museum").2.2.2.2 ("salar jung", 20)
      (by decide) (by decide) (by decide)
  · exact (estimate_entry_fee_amended "Some Random Mall").2.2.1 (by decide)

/-- C7 counterexample: a response whose `rows` field has the wrong shape
(an integer, hence not subscriptable) makes the live travel path raise a
`TypeError` that escapes `get_travel_info` — it does not return the
fallback heuristic record. -/
theorem travel_wrong_shape_counterexample :
    get_travel_info_from_data (Json.obj [("rows", Json.int 5)]) "A" "B" =
      Except.error (PyErr.typeError "object is not subscriptable") ∧
    ∀ v : Json, get_travel_info_from_data (Json.obj [("rows", Json.int 5)]) "A" "B" ≠
      Except.ok v :=
  ⟨rfl, fun _ h => Except.noConfusion h⟩

/-- C7 amended: a missing key (`KeyError`) or missing list element
(`IndexError`) anywhere in the live travel response makes
`get_travel_info` return exactly the fallback heuristic record; a
successful body is returned as-is (never a partial mixture); but a
`TypeError` from a wrongly-shaped field propagates. -/
theorem get_travel_info_missing_field_fallback (data : Json) (origin destination : String) :
    (∀ m, travel_body data = Except.error (PyErr.keyError m) →
      get_travel_info_from_data data origin destination =
        Except.ok (mock_travel origin destination)) ∧
    (∀ m, travel_body data = Except.error (PyErr.indexError m) →
      get_travel_info_from_data data origin destination =
        Except.ok (mock_travel origin destination)) ∧
    (∀ v, travel_body data = Except.ok v →
      get_travel_info_from_data data origin destination = Except.ok v) ∧
    (∀ m, travel_body data = Except.error (PyErr.typeError m) →
      get_travel_info_from_data data origin destination =
        Except.error (PyErr.typeError m)) := by
  refine ⟨?_, ?_, ?_, ?_⟩ <;> intro x h <;> simp [get_travel_info_from_data, h]

theorem get_travel_info_missing_field_fallback_witness :
    get_travel_info_from_data (Json.obj []) "A" "B" = Except.ok (mock_travel "A" "B") ∧
    get_travel_info_from_data (Json.obj [("rows", Json.arr [])]) "A" "B" =
      Except.ok (mock_travel "A" "B") := by
  constructor
  · exact (get_travel_info_missing_field_fallback (Json.obj []) "A" "B").1 "'rows'" rfl
  · exact (get_travel_info_missing_field_fallback (Json.obj [("rows", Json.arr [])]) "A" "B").2.1
      "list index out of range" rfl

/-- A cheap place (price level 1, mapped cost 150) used in counterexamples. -/
def pCheap : PlaceResp := ⟨some "Cheap Corner", some "Addr 2", some 4.2, some 1, some "pid2"⟩

/-- A pricey place (price level 4, mapped cost 1200) used in counterexamples. -/
def pPricey : PlaceResp := ⟨some "Pricey Palace", some "Addr 1", some 4.8, some 4, some "pid1"⟩

/-- C1 counterexample: on the response `[pPricey, pCheap]` with budget
1000 and `limit` 1 the source slices to `limit` *before* filtering, so
the single surviving candidate is discarded and the mock fallback (4
entries) is returned; under the claim's reading (first `limit` elements
of the budget-filtered response list) the result would be the one cheap
record. The two disagree. -/
theorem search_restaurants_cap_order_counterexample :
    search_restaurants_live [pPricey, pCheap] "Area" 1000 1 = mock_restaurants "Area" 1000 ∧
    (search_restaurants_live [pPricey, pCheap] "Area" 1000 1).length = 4 ∧
    (search_restaurants_live_specOrder [pPricey, pCheap] "Area" 1000 1).length = 1 ∧
    search_restaurants_live [pPricey, pCheap] "Area" 1000 1 ≠
      search_restaurants_live_specOrder [pPricey, pCheap] "Area" 1000 1 :=
  ⟨rfl, rfl, rfl, fun h => absurd (congrArg List.length h) (by decide)⟩

/-- C1 amended: the live restaurant path maps price levels through the
fixed table (350 when the level is absent, via the default level 2),
discards mapped costs above 45% of the budget, but applies this filter
only to the first `limit` elements of the response (cap before filter,
so at most `limit` entries survive), and falls back to the mock list
exactly when zero entries survive. -/
theorem search_restaurants_live_amended (resp : List PlaceResp) (area : String)
    (B : Int) (limit : Nat) :
    search_restaurants_live resp area B limit =
      (if ((resp.take limit).filterMap (restaurantEntry area B)).isEmpty
        then mock_restaurants area B
        else (resp.take limit).filterMap (restaurantEntry area B)) ∧
    ((resp.take limit).filterMap (restaurantEntry area B)).length ≤ limit ∧
    (∀ r ∈ (resp.take limit).filterMap (restaurantEntry area B), ∃ c : Int,
      objLookup r "estimated_cost" = some (Json.int c) ∧
      (c : ℚ) ≤ (B : ℚ) * 0.45 ∧ (c = 150 ∨ c = 350 ∨ c = 600 ∨ c = 1200)) ∧
    (∀ p : PlaceResp, p.price_level = none → ∀ r, restaurantEntry area B p = some r →
      objLookup r "estimated_cost" = some (Json.int 350)) ∧
    cost_map 1 = 150 ∧ cost_map 2 = 350 ∧ cost_map 3 = 600 ∧ cost_map 4 = 1200 := by
  refine ⟨rfl, ?_, ?_, ?_, rfl, rfl, rfl, rfl⟩
  · exact le_trans (List.length_filterMap_le _ _) (List.length_take_le _ _)
  · intro r hr
    obtain ⟨p, _, he⟩ := List.mem_filterMap.mp hr
    unfold restaurantEntry at he
    by_cases hc : 20 * cost_map (p.price_level.getD 2) > 9 * B
    · rw [if_pos hc] at he
      exact absurd he (by simp)
    · rw [if_neg hc] at he
      obtain rfl := Option.some.inj he
      refine ⟨cost_map (p.price_level.getD 2), by simp [objLookup], ?_, ?_⟩
      · push_neg at hc
        have hq : (20 * cost_map (p.price_level.getD 2) : ℚ) ≤ (9 * B : ℚ) := by
          exact_mod_cast hc
        linarith
      · unfold cost_map
        split_ifs <;> simp
  · intro p hnone r he
    unfold restaurantEntry at he
    rw [hnone] at he
    by_cases hc : 20 * cost_map ((none : Option Int).getD 2) > 9 * B
    · rw [if_pos hc] at he
      exact absurd he (by simp)
    · rw [if_neg hc] at he
      obtain rfl := Option.some.inj he
      simp [objLookup, cost_map]

theorem search_restaurants_live_amended_witness :
    ∃ c : Int,
      objLookup (Json.obj [("name", Json.str "Cheap Corner"), ("address", Json.str "Addr 2"),
        ("rating", Json.float 4.2), ("price_level", Json.int 1), ("estimated_cost", Json.int 150),
        ("maps_url", Json.str "https://www.google.com/maps/place/?q=place_id:pid2"),
        ("place_id", Json.str "pid2")]) "estimated_cost" = some (Json.int c) ∧
      (c : ℚ) ≤ (1000 : ℚ) * 0.45 ∧ (c = 150 ∨ c = 350 ∨ c = 600 ∨ c = 1200) :=
  (search_restaurants_live_amended [pCheap] "Area" 1000 5).2.2.1 _ (List.Mem.head _)
